import Mathlib

/-
  Verification of the lifecycle orchestrator in onos-ric-sdk-py
  (src/onos_ric_sdk_py/__init__.py): the run entry operation, the
  Main Task Runner (run_main), the Shutdown Listener (run_listener and
  shutdown_listener), and the route-merge failure path.

  The embedding is shallow: Python control flow becomes pure Lean
  functions, side effects become explicit action traces, and the mutable
  aiohttp Application object becomes an explicit record threaded through
  the code. External collaborators (aiohttp route registration, cleanup
  contexts, asyncio events) are modelled by their documented semantics,
  which the spec also describes. The default route table lives in
  src/onos_ric_sdk_py/server.py, which is not part of the provided
  sources; it is therefore treated as a parameter (an arbitrary list of
  route definitions), which makes the theorems hold for every possible
  default table.
-/

namespace OnosRicSdkPy

/-- A Python value passed as the main argument of run. A coroutine object
carries a flag recording whether it has already been awaited or started;
asyncio.coroutines.iscoroutine inspects only the type of the value, never
that flag. -/
inductive PyValue where
  | coroutine (awaited : Bool)
  | function (name : String)
  | other (repr : String)
deriving DecidableEq

/-- Embeds asyncio.coroutines.iscoroutine: true exactly for coroutine
objects, regardless of whether they were already awaited. -/
def iscoroutine : PyValue → Bool
  | .coroutine _ => true
  | _ => false

/-- A route definition; identity is the (method, path) pair. -/
structure RouteDef where
  method : String
  path : String
deriving DecidableEq

def routeId (r : RouteDef) : String × String := (r.method, r.path)

/-- Middleware values; the source installs only error_middleware (imported
from the server module). -/
inductive Middleware where
  | errorMiddleware
  | named (s : String)
deriving DecidableEq

def error_middleware : Middleware := .errorMiddleware

/-- A value stored in the string-keyed application container. -/
inductive Entry where
  | py (v : PyValue)
  | str (s : String)
  | event (isSet : Bool)
deriving DecidableEq

/-- Embeds aiohttp web.Application as far as the source touches it: the
middleware list, the string-keyed container dictionary, and the table of
registered routes. -/
structure Application where
  middlewares : List Middleware
  dict : List (String × Entry)
  routeTable : List RouteDef
deriving DecidableEq

/-- Dictionary-style assignment app[k] = v. -/
def Application.setItem (a : Application) (k : String) (v : Entry) : Application :=
  { a with dict := (k, v) :: a.dict.filter (fun p => p.1 != k) }

/-- Dictionary-style lookup app[k]. -/
def Application.getItem (a : Application) (k : String) : Option Entry :=
  (a.dict.find? (fun p => p.1 == k)).map Prod.snd

/-- Errors raised by run. The source raises the Python built-in
ValueError (with message "A coroutine was expected, got ...") for a bad
entrypoint; the spec names this condition InvalidEntrypointError. The
DuplicateRouteError constructor carries the list of (method, path) pairs
interpolated into its message, exactly as the source computes it. -/
inductive Err where
  | invalidEntrypoint (got : PyValue)
  | duplicateRoute (resources : List (String × String))
deriving DecidableEq

/-- True when some route in new shares its (method, path) identity with a
route already present in table. -/
def hasConflict (table new : List RouteDef) : Bool :=
  new.any (fun r => table.any (fun t => routeId t == routeId r))

/-- Embeds aiohttp app.add_routes (external collaborator): registering a
route whose (method, path) identity is already present fails with a
RuntimeError; otherwise the routes are appended to the table. -/
def add_routes (a : Application) (new : List RouteDef) : Except Unit Application :=
  if hasConflict a.routeTable new then .error ()
  else .ok { a with routeTable := a.routeTable ++ new }

/-- Embeds aiohttp_swagger.setup_swagger (external collaborator): adds the
documentation endpoint, leaving middlewares and the container untouched. -/
def setup_swagger (a : Application) : Application :=
  { a with routeTable := a.routeTable ++ [{ method := "GET", path := "/api/doc" }] }

/-- Observable side effects of a call to run, in program order. -/
inductive Action where
  | createApplication
  | storeEntry (key : String)
  | addRoutesOk
  | closeMain
  | raiseErr
  | setupSwagger
  | appendCleanupCtx (ctx : String)
  | runApp
deriving DecidableEq

/-- Everything a call to run leaves behind: the ordered trace of side
effects, the application container at the moment run returned or raised
(none when no container was ever available), the registered cleanup
contexts, and the returned or raised outcome. -/
structure RunOutcome where
  trace : List Action
  finalApp : Option Application
  cleanupCtxs : List String
  result : Except Err Unit

/-- The application object run works on: the supplied one when present,
otherwise a fresh web.Application carrying the error-translation
middleware (the source line app = web.Application with the
error_middleware in its middleware list). -/
def initialApp : Option Application → Application
  | none => { middlewares := [error_middleware], dict := [], routeTable := [] }
  | some a => a

/-- Shallow embedding of run from src/onos_ric_sdk_py/__init__.py.
Parameters mirror the Python signature (main, path, app); routes is the
default route table imported from the server module, whose source is not
provided, so it stays a parameter. logging.basicConfig is a side channel
and is not modelled. Control flow is line by line: the iscoroutine check
raises first; otherwise a fresh Application is built when none was
supplied; main and path are stored in the container; add_routes either
succeeds (then setup_swagger runs, both cleanup contexts are appended and
web.run_app is entered) or raises RuntimeError, in which case the main
coroutine is closed and DuplicateRouteError is raised carrying the
(method, path) pairs of every RouteDef in the default table. -/
def run (main : PyValue) (path : String) (appArg : Option Application)
    (routes : List RouteDef) : RunOutcome :=
  if iscoroutine main = false then
    { trace := [.raiseErr], finalApp := appArg, cleanupCtxs := [],
      result := .error (.invalidEntrypoint main) }
  else
    let createdTrace : List Action :=
      if appArg.isNone then [.createApplication] else []
    let app2 := ((initialApp appArg).setItem "main" (.py main)).setItem "path" (.str path)
    match add_routes app2 routes with
    | .error _ =>
        { trace := createdTrace ++
            [.storeEntry "main", .storeEntry "path", .closeMain, .raiseErr],
          finalApp := some app2, cleanupCtxs := [],
          result := .error (.duplicateRoute (routes.map routeId)) }
    | .ok app3 =>
        let app4 := setup_swagger app3
        { trace := createdTrace ++
            [.storeEntry "main", .storeEntry "path", .addRoutesOk, .setupSwagger,
             .appendCleanupCtx "run_main", .appendCleanupCtx "run_listener", .runApp],
          finalApp := some app4,
          cleanupCtxs := ["run_main", "run_listener"],
          result := .ok () }

/-- Phases of an aiohttp cleanup context. -/
inductive Phase where
  | startup
  | teardown
deriving DecidableEq

/-- Embeds aiohttp cleanup_ctx execution (external collaborator, as
documented): the part of each context before its yield runs in
registration order before the server starts accepting connections; the
part after the yield runs in reverse registration order after the server
stops, each step completing before the next begins. -/
def cleanupCtxSchedule (ctxs : List String) : List (String × Phase) :=
  ctxs.map (fun c => (c, Phase.startup)) ++ ctxs.reverse.map (fun c => (c, Phase.teardown))

/-- Exceptions the task model distinguishes. -/
inductive Exc where
  | cancelledError
  | valueError (msg : String)
  | otherExc (name : String)
deriving DecidableEq

/-- How the supervised background task has terminated by the time the
teardown code awaits it: it honoured the cancellation request, or it
terminated with some exception of its own, or it completed normally. -/
inductive TaskTermination where
  | cancelledBy
  | failed (e : Exc)
  | completed
deriving DecidableEq

/-- Awaiting an already-finished task (just after task.cancel): raises
CancelledError when the task ended by honouring the cancellation, raises
the stored exception when the task had failed, returns normally when the
task had completed. -/
def awaitAfterCancel : TaskTermination → Option Exc
  | .cancelledBy => some .cancelledError
  | .failed e => some e
  | .completed => none

/-- The two statements after the yield in run_main and run_listener. -/
inductive TeardownStep where
  | cancelTask
  | awaitTask
deriving DecidableEq

def run_main_teardown_steps : List TeardownStep := [.cancelTask, .awaitTask]

/-- Embeds the part of run_main after the yield: task.cancel(), then
await task inside a try that swallows asyncio.CancelledError and lets
every other exception escape. -/
def run_main_teardown (t : TaskTermination) : Except Exc Unit :=
  match awaitAfterCancel t with
  | some Exc.cancelledError => Except.ok ()
  | some e => Except.error e
  | none => Except.ok ()

/-- Embeds the part of run_listener after the yield; the source text is
identical to the teardown of run_main. -/
def run_listener_teardown (t : TaskTermination) : Except Exc Unit :=
  run_main_teardown t

/-- Embeds the teardown half of web.run_app (external collaborator):
cleanup contexts unwind in reverse registration order, the listener
context first, then the main context; an exception escaping a teardown
step surfaces as the process-level error of run. -/
def run_teardown_result (mainTerm listenerTerm : TaskTermination) : Except Exc Unit :=
  match run_listener_teardown listenerTerm with
  | Except.error e => Except.error e
  | Except.ok _ => run_main_teardown mainTerm

/-- Embeds asyncio.Event as far as the source uses it: a boolean flag.
The only mutating operation the code base performs on it is set; there is
no clear call anywhere, so the flag is never reset. -/
abbrev Event : Type := Bool

/-- Embeds asyncio.Event.set: the flag becomes true no matter its
previous value. -/
def Event.set (_ : Event) : Event := true

/-- Primitive steps of the shutdown_listener coroutine. -/
inductive LAction where
  | waitEvent
  | logWarning
  | sleep (d : Nat)
  | kill
deriving DecidableEq

/-- The fixed grace period of asyncio.sleep(1) in shutdown_listener. -/
def gracePeriod : Nat := 1

/-- The straight-line body of shutdown_listener, statement by statement:
await the shutdown event, log the warning, sleep for the grace period,
send SIGTERM to the own process. -/
def shutdown_listener_body : List LAction :=
  [.waitEvent, .logWarning, .sleep gracePeriod, .kill]

/-- Timed execution of a listener body on a discrete clock. The second
argument is the time at which the shutdown event is set (none when it is
never set). Waiting on an unset event blocks until the teardown
cancellation arrives, so nothing further is performed; waiting on an
event set at time t resumes at time t (or immediately when t has already
passed); sleeping advances the clock; logging and killing are recorded
with their timestamps. -/
def execBody : Nat → Option Nat → List LAction → List (Nat × LAction)
  | _, _, [] => []
  | _, none, LAction.waitEvent :: _ => []
  | clock, some t, LAction.waitEvent :: rest => execBody (max clock t) (some t) rest
  | clock, ev, LAction.logWarning :: rest => (clock, LAction.logWarning) :: execBody clock ev rest
  | clock, ev, LAction.sleep d :: rest => execBody (clock + d) ev rest
  | clock, ev, LAction.kill :: rest => (clock, LAction.kill) :: execBody clock ev rest

/-- The observable timed trace of shutdown_listener when the shutdown
event is set at the given time (none: never set). -/
def execListener (setTime : Option Nat) : List (Nat × LAction) :=
  execBody 0 setTime shutdown_listener_body

/-- The time at which a flag set at each time in the list first becomes
observable to a waiter: the earliest set. -/
def firstSetTime (sets : List Nat) : Option Nat :=
  sets.foldr (fun t acc => match acc with | none => some t | some u => some (min t u)) none

/-- The observable timed trace of shutdown_listener when the shutdown
event is set once per element of the list (possibly several times). -/
def execListenerMulti (sets : List Nat) : List (Nat × LAction) :=
  execListener (firstSetTime sets)

/-- The (method, path) identities of the routes in new that collide with a
route already present in table. -/
def conflictingIds (table new : List RouteDef) : List (String × String) :=
  (new.filter (fun r => table.any (fun t => routeId t == routeId r))).map routeId

/-- A two-route default table used as concrete test data. -/
def defaultsEx : List RouteDef :=
  [{ method := "GET", path := "/status" }, { method := "GET", path := "/config" }]

/-- A caller-supplied application whose route table collides with exactly
one of the two routes of defaultsEx. -/
def callerAppEx : Application :=
  { middlewares := [], dict := [], routeTable := [{ method := "GET", path := "/status" }] }

@[simp]
theorem Application.setItem_routeTable (a : Application) (k : String) (v : Entry) :
    (a.setItem k v).routeTable = a.routeTable := rfl

@[simp]
theorem Application.setItem_middlewares (a : Application) (k : String) (v : Entry) :
    (a.setItem k v).middlewares = a.middlewares := rfl

@[simp]
theorem setup_swagger_middlewares (a : Application) :
    (setup_swagger a).middlewares = a.middlewares := rfl

/-- C1: for every value v that is not a coroutine, run raises the invalid
entrypoint error (the ValueError of the source, named
InvalidEntrypointError by the spec), and the Application Container is
never created: no application object is built (finalApp stays none), no
entry is stored (the trace holds only the raise), and no cleanup context
is registered. -/
theorem run_non_coroutine_rejected (v : PyValue) (p : String) (rs : List RouteDef)
    (h : iscoroutine v = false) :
    (run v p none rs).result = Except.error (Err.invalidEntrypoint v) ∧
    (run v p none rs).finalApp = none ∧
    (run v p none rs).trace = [Action.raiseErr] ∧
    (run v p none rs).cleanupCtxs = [] := by
  simp [run, h]

/-- Witness for C1 at a plain function value. -/
theorem run_non_coroutine_rejected_witness :
    (run (PyValue.function "handler") "/cfg" none []).result
      = Except.error (Err.invalidEntrypoint (PyValue.function "handler")) ∧
    (run (PyValue.function "handler") "/cfg" none []).finalApp = none ∧
    (run (PyValue.function "handler") "/cfg" none []).trace = [Action.raiseErr] ∧
    (run (PyValue.function "handler") "/cfg" none []).cleanupCtxs = [] :=
  run_non_coroutine_rejected (PyValue.function "handler") "/cfg" [] rfl

/-- C7 counterexample: an already-awaited coroutine object is still a
coroutine for the iscoroutine check, so run does not raise the invalid
entrypoint error for it; with a conflict-free table it completes
normally. -/
theorem run_awaited_coroutine_not_rejected_cex :
    iscoroutine (PyValue.coroutine true) = true ∧
    (run (PyValue.coroutine true) "/cfg" none []).result = Except.ok () := by
  exact ⟨rfl, rfl⟩

/-- C7 amended: for every argument that is not a coroutine object (plain
function or any other non-coroutine value), run fails with the invalid
entrypoint error before any background activity starts; a coroutine
object that was already awaited is not detected by the check. -/
theorem run_rejects_exactly_non_coroutine_objects (v : PyValue) (p : String)
    (a : Option Application) (rs : List RouteDef) (h : iscoroutine v = false) :
    (run v p a rs).result = Except.error (Err.invalidEntrypoint v) ∧
    (run v p a rs).trace = [Action.raiseErr] ∧
    (run v p a rs).cleanupCtxs = [] ∧
    (run v p a rs).finalApp = a := by
  simp [run, h]

/-- Witness for the amended C7 at a non-coroutine value with a supplied
application. -/
theorem run_rejects_exactly_non_coroutine_objects_witness :
    (run (PyValue.other "42") "/cfg" (some callerAppEx) defaultsEx).result
      = Except.error (Err.invalidEntrypoint (PyValue.other "42")) ∧
    (run (PyValue.other "42") "/cfg" (some callerAppEx) defaultsEx).trace
      = [Action.raiseErr] ∧
    (run (PyValue.other "42") "/cfg" (some callerAppEx) defaultsEx).cleanupCtxs = [] ∧
    (run (PyValue.other "42") "/cfg" (some callerAppEx) defaultsEx).finalApp
      = some callerAppEx :=
  run_rejects_exactly_non_coroutine_objects (PyValue.other "42") "/cfg"
    (some callerAppEx) defaultsEx rfl

/-- C3: the teardown of the Main Task Runner first cancels the task and
then awaits it; a termination caused by the cancellation is swallowed and
teardown succeeds, while any other exception (for instance a ValueError)
escapes run_main and, through the cleanup unwinding of web.run_app,
escapes run itself. -/
theorem main_teardown_swallows_cancel_propagates_failure (e : Exc)
    (h : e ≠ Exc.cancelledError) :
    run_main_teardown_steps = [TeardownStep.cancelTask, TeardownStep.awaitTask] ∧
    run_main_teardown TaskTermination.cancelledBy = Except.ok () ∧
    run_main_teardown (TaskTermination.failed e) = Except.error e ∧
    run_teardown_result (TaskTermination.failed e) TaskTermination.cancelledBy
      = Except.error e := by
  refine ⟨rfl, rfl, ?_, ?_⟩
  · cases e with
    | cancelledError => exact absurd rfl h
    | valueError msg => rfl
    | otherExc n => rfl
  · cases e with
    | cancelledError => exact absurd rfl h
    | valueError msg => rfl
    | otherExc n => rfl

/-- Witness for C3 at the ValueError boom scenario of the spec. -/
theorem main_teardown_swallows_cancel_propagates_failure_witness :
    run_main_teardown (TaskTermination.failed (Exc.valueError "boom"))
      = Except.error (Exc.valueError "boom") ∧
    run_teardown_result (TaskTermination.failed (Exc.valueError "boom"))
      TaskTermination.cancelledBy = Except.error (Exc.valueError "boom") :=
  ⟨(main_teardown_swallows_cancel_propagates_failure (Exc.valueError "boom")
      (by decide)).2.2.1,
   (main_teardown_swallows_cancel_propagates_failure (Exc.valueError "boom")
      (by decide)).2.2.2⟩

/-- C4: once the shutdown event is set, at time t, the listener logs the
warning at t, waits exactly the one-unit grace period, and issues the
process-termination signal exactly once, at t + 1, never before the event
is set; while the event is never set, the listener performs no visible
action at all. -/
theorem listener_warns_then_kills_once_after_grace (t : Nat) :
    execListener (some t)
      = [(t, LAction.logWarning), (t + gracePeriod, LAction.kill)] ∧
    ((execListener (some t)).filter (fun p => p.2 == LAction.kill)).length = 1 ∧
    t ≤ t + gracePeriod ∧
    execListener none = [] := by
  have hbody : execListener (some t)
      = [(t, LAction.logWarning), (t + gracePeriod, LAction.kill)] := by
    simp [execListener, execBody, shutdown_listener_body, gracePeriod, Nat.zero_max]
  refine ⟨hbody, ?_, Nat.le_add_right t gracePeriod, rfl⟩
  rw [hbody]
  rfl

/-- C5: whenever run reaches the server loop, the two supervised
activities were registered as run_main first and run_listener second, so
the cleanup-context schedule starts the Main Task Runner before the
Shutdown Listener and tears the Shutdown Listener down completely before
the teardown of the Main Task Runner begins. -/
theorem startup_teardown_ordering (v : PyValue) (p : String) (a : Option Application)
    (rs : List RouteDef) (h : (run v p a rs).result = Except.ok ()) :
    (run v p a rs).cleanupCtxs = ["run_main", "run_listener"] ∧
    cleanupCtxSchedule ((run v p a rs).cleanupCtxs)
      = [("run_main", Phase.startup), ("run_listener", Phase.startup),
         ("run_listener", Phase.teardown), ("run_main", Phase.teardown)] := by
  by_cases hco : iscoroutine v = false
  · simp [run, hco] at h
  · by_cases hcc : hasConflict (initialApp a).routeTable rs = true
    · simp [run, hco, add_routes, hcc] at h
    · have hctx : (run v p a rs).cleanupCtxs = ["run_main", "run_listener"] := by
        simp [run, hco, add_routes, hcc]
      exact ⟨hctx, by rw [hctx]; rfl⟩

/-- Witness for C5 on a run that reaches the server loop. -/
theorem startup_teardown_ordering_witness :
    (run (PyValue.coroutine false) "/cfg" none []).cleanupCtxs
      = ["run_main", "run_listener"] ∧
    cleanupCtxSchedule ((run (PyValue.coroutine false) "/cfg" none []).cleanupCtxs)
      = [("run_main", Phase.startup), ("run_listener", Phase.startup),
         ("run_listener", Phase.teardown), ("run_main", Phase.teardown)] :=
  startup_teardown_ordering (PyValue.coroutine false) "/cfg" none [] rfl

/-- C6: setting the shutdown event is idempotent (the flag just becomes
true, and no operation in the code base ever resets it), and a second set
at a later time changes nothing observable: the warning is logged once,
one grace period elapses, and the termination signal is issued exactly
once, exactly as for a single set. -/
theorem shutdown_set_twice_idempotent (e : Event) (t1 t2 : Nat) (h : t1 ≤ t2) :
    Event.set (Event.set e) = Event.set e ∧
    Event.set e = true ∧
    execListenerMulti [t1, t2] = execListenerMulti [t1] ∧
    execListenerMulti [t1]
      = [(t1, LAction.logWarning), (t1 + gracePeriod, LAction.kill)] := by
  refine ⟨rfl, rfl, ?_, ?_⟩
  · simp [execListenerMulti, firstSetTime, Nat.min_eq_left h]
  · simp [execListenerMulti, firstSetTime, execListener, execBody,
      shutdown_listener_body, gracePeriod, Nat.zero_max]

/-- Witness for C6: a double set at times 2 and 5 behaves like the single
set at time 2. -/
theorem shutdown_set_twice_idempotent_witness :
    execListenerMulti [2, 5] = execListenerMulti [2] ∧
    execListenerMulti [2] = [(2, LAction.logWarning), (2 + gracePeriod, LAction.kill)] ∧
    Event.set (Event.set false) = Event.set false :=
  ⟨(shutdown_set_twice_idempotent false 2 5 (by decide)).2.2.1,
   (shutdown_set_twice_idempotent false 2 5 (by decide)).2.2.2,
   (shutdown_set_twice_idempotent false 2 5 (by decide)).1⟩

/-- C2 counterexample: with a caller-supplied application colliding on
GET /status only, the DuplicateRouteError carries both default pairs,
including GET /config, which conflicts with nothing — so the message is
not restricted to the conflicting pairs. -/
theorem duplicate_route_message_overapproximates_cex :
    (run (PyValue.coroutine false) "/cfg" (some callerAppEx) defaultsEx).result
      = Except.error (Err.duplicateRoute [("GET", "/status"), ("GET", "/config")]) ∧
    conflictingIds callerAppEx.routeTable defaultsEx = [("GET", "/status")] ∧
    ("GET", "/config") ∉ conflictingIds callerAppEx.routeTable defaultsEx := by
  refine ⟨rfl, rfl, ?_⟩
  decide

/-- C2 amended: whenever the caller routes share at least one
(method, path) identity with the defaults, run fails with a
DuplicateRouteError naming every (method, path) pair of the default
route table — a superset of the conflicting pairs that may also include
defaults that conflict with nothing. -/
theorem duplicate_route_names_all_defaults (v : PyValue) (p : String)
    (a : Application) (rs : List RouteDef) (hco : iscoroutine v = true)
    (hc : hasConflict a.routeTable rs = true) :
    (run v p (some a) rs).result
      = Except.error (Err.duplicateRoute (rs.map routeId)) ∧
    ∀ x ∈ conflictingIds a.routeTable rs, x ∈ rs.map routeId := by
  constructor
  · simp [run, hco, add_routes, initialApp, hc]
  · intro x hx
    simp only [conflictingIds, List.mem_map, List.mem_filter] at hx
    obtain ⟨r, ⟨hr, _⟩, rfl⟩ := hx
    exact List.mem_map_of_mem routeId hr

/-- Witness for the amended C2 on the concrete one-conflict instance. -/
theorem duplicate_route_names_all_defaults_witness :
    (run (PyValue.coroutine false) "/cfg" (some callerAppEx) defaultsEx).result
      = Except.error (Err.duplicateRoute (defaultsEx.map routeId)) ∧
    ("GET", "/status") ∈ defaultsEx.map routeId :=
  ⟨(duplicate_route_names_all_defaults (PyValue.coroutine false) "/cfg"
      callerAppEx defaultsEx rfl rfl).1,
   (duplicate_route_names_all_defaults (PyValue.coroutine false) "/cfg"
      callerAppEx defaultsEx rfl rfl).2 ("GET", "/status") (by decide)⟩

/-- Looking up the key just assigned returns the assigned value. -/
theorem Application.getItem_setItem_self (a : Application) (k : String) (v : Entry) :
    (a.setItem k v).getItem k = some v := by
  simp [Application.setItem, Application.getItem]

/-- A second assignment under a different key does not shadow the first. -/
theorem Application.getItem_setItem_earlier (a : Application) (k1 k2 : String)
    (v1 v2 : Entry) (h : k1 ≠ k2) :
    ((a.setItem k1 v1).setItem k2 v2).getItem k1 = some v1 := by
  simp [Application.setItem, Application.getItem, List.filter_cons, List.find?_cons,
    h, Ne.symm h]

/-- C8: whenever the route merge fails, the trace of run shows the main
coroutine being explicitly closed before the raise, and no background
activity has started: no cleanup context was registered, and neither the
server loop nor any context-append action appears in the trace. -/
theorem conflict_closes_unstarted_main (v : PyValue) (p : String) (a : Application)
    (rs : List RouteDef) (hco : iscoroutine v = true)
    (hc : hasConflict a.routeTable rs = true) :
    (run v p (some a) rs).trace
      = [Action.storeEntry "main", Action.storeEntry "path",
         Action.closeMain, Action.raiseErr] ∧
    (run v p (some a) rs).cleanupCtxs = [] ∧
    Action.runApp ∉ (run v p (some a) rs).trace ∧
    Action.appendCleanupCtx "run_main" ∉ (run v p (some a) rs).trace ∧
    Action.appendCleanupCtx "run_listener" ∉ (run v p (some a) rs).trace := by
  have ht : (run v p (some a) rs).trace
      = [Action.storeEntry "main", Action.storeEntry "path",
         Action.closeMain, Action.raiseErr] := by
    simp [run, hco, add_routes, initialApp, hc]
  have hcx : (run v p (some a) rs).cleanupCtxs = [] := by
    simp [run, hco, add_routes, initialApp, hc]
  refine ⟨ht, hcx, ?_, ?_, ?_⟩ <;> rw [ht] <;> decide

/-- Witness for C8 on the concrete conflicting instance. -/
theorem conflict_closes_unstarted_main_witness :
    (run (PyValue.coroutine false) "/cfg" (some callerAppEx) defaultsEx).trace
      = [Action.storeEntry "main", Action.storeEntry "path",
         Action.closeMain, Action.raiseErr] ∧
    (run (PyValue.coroutine false) "/cfg" (some callerAppEx) defaultsEx).cleanupCtxs
      = [] :=
  ⟨(conflict_closes_unstarted_main (PyValue.coroutine false) "/cfg"
      callerAppEx defaultsEx rfl rfl).1,
   (conflict_closes_unstarted_main (PyValue.coroutine false) "/cfg"
      callerAppEx defaultsEx rfl rfl).2.1⟩

/-- C9: when run raises DuplicateRouteError the container was already
mutated: the final application (the caller-supplied object) holds the
main coroutine under the key main and the configuration path under the
key path, so the failure is not atomic with respect to container
state. -/
theorem conflict_container_already_mutated (v : PyValue) (p : String)
    (a : Application) (rs : List RouteDef) (hco : iscoroutine v = true)
    (hc : hasConflict a.routeTable rs = true) :
    (run v p (some a) rs).result
      = Except.error (Err.duplicateRoute (rs.map routeId)) ∧
    (run v p (some a) rs).finalApp
      = some ((a.setItem "main" (Entry.py v)).setItem "path" (Entry.str p)) ∧
    ((a.setItem "main" (Entry.py v)).setItem "path" (Entry.str p)).getItem "main"
      = some (Entry.py v) ∧
    ((a.setItem "main" (Entry.py v)).setItem "path" (Entry.str p)).getItem "path"
      = some (Entry.str p) := by
  refine ⟨?_, ?_, ?_, ?_⟩
  · simp [run, hco, add_routes, initialApp, hc]
  · simp [run, hco, add_routes, initialApp, hc]
  · exact Application.getItem_setItem_earlier a "main" "path" (Entry.py v)
      (Entry.str p) (by decide)
  · exact Application.getItem_setItem_self (a.setItem "main" (Entry.py v)) "path"
      (Entry.str p)

/-- Witness for C9 on the concrete conflicting instance. -/
theorem conflict_container_already_mutated_witness :
    (run (PyValue.coroutine false) "/cfg" (some callerAppEx) defaultsEx).finalApp
      = some ((callerAppEx.setItem "main" (Entry.py (PyValue.coroutine false))).setItem
          "path" (Entry.str "/cfg")) ∧
    ((callerAppEx.setItem "main" (Entry.py (PyValue.coroutine false))).setItem
        "path" (Entry.str "/cfg")).getItem "main"
      = some (Entry.py (PyValue.coroutine false)) :=
  ⟨(conflict_container_already_mutated (PyValue.coroutine false) "/cfg"
      callerAppEx defaultsEx rfl rfl).2.1,
   (conflict_container_already_mutated (PyValue.coroutine false) "/cfg"
      callerAppEx defaultsEx rfl rfl).2.2.1⟩

/-- C10: run never touches the middleware list of a caller-supplied
application — whatever path run takes, the final application carries
exactly the supplied middlewares — while the error-translation middleware
is installed precisely on the freshly created application of the no-app
call (which exists exactly when the coroutine check passed). -/
theorem supplied_app_middlewares_unchanged (v : PyValue) (p : String)
    (a : Application) (rs : List RouteDef) :
    ((run v p (some a) rs).finalApp.map Application.middlewares)
      = some a.middlewares ∧
    ((run v p none rs).finalApp.map Application.middlewares)
      = (if iscoroutine v = true then some [error_middleware] else none) := by
  constructor
  · by_cases hco : iscoroutine v = false
    · simp [run, hco]
    · by_cases hcc : hasConflict a.routeTable rs = true
      · simp [run, hco, add_routes, hcc, initialApp]
      · simp [run, hco, add_routes, hcc, initialApp, setup_swagger]
  · by_cases hco : iscoroutine v = false
    · simp [run, hco]
    · have hcc : hasConflict [] rs = false := by
        simp [hasConflict]
      have hco2 : iscoroutine v = true := by
        revert hco
        cases iscoroutine v <;> simp
      simp [run, hco, hco2, add_routes, hcc, initialApp, setup_swagger]

end OnosRicSdkPy
